import Mathlib

/-!
Verification of `automateCaseFilesDownlaoder.py`.

The script downloads case directories from a remote SFTP server.  We give a
shallow embedding of its four functions (`download_directory`,
`should_exclude`, `print_progress`, `format_size`) and of the module-level
interactive session, and prove / refute the spec claims against it.

Modelling conventions:
* Paths are lists of components; `os.path.join dir name` is `dir ++ [name]`.
* Byte counts are `Nat`; byte contents are `List Nat`.
* Python float arithmetic in `format_size` is modelled by exact rationals:
  the only arithmetic performed is division by `1024 = 2 ^ 10`, which is
  exact in IEEE double precision for every value the loop can reach from an
  integer input, so the rational model computes the same unit index and the
  same displayed value as the Python code.
* A Python exception is modelled by `Option`/an explicit failure flag.
* The SSH/SFTP transport is the external collaborator of the spec: its
  calls (`connect`, `listdir`, `stat`, `getfo`) are driven by an explicit
  environment describing the remote side and the user's keystrokes.
-/

/-- `should_exclude(filename)` from the source: membership of the filename in
the fixed two-element list of sentinel names. -/
def should_exclude (filename : String) : Bool :=
  let exclude_patterns : List String := [".sfdcprefix", ".sfdc-file-listing-v1"]
  filename ∈ exclude_patterns

/-- The `power_labels` dict of `format_size`: `{0: '', 1: 'KB', 2: 'MB', 3: 'GB'}`.
A missing key raises `KeyError` in Python, modelled by `none`. -/
def power_labels : Nat → Option String
  | 0 => some ""
  | 1 => some "KB"
  | 2 => some "MB"
  | 3 => some "GB"
  | _ + 4 => none

/-- The `while size > power: size /= power; n += 1` loop of `format_size`,
with `power = 1024`, on exact rationals.  `fuel` bounds the number of
iterations; the loop stops by itself as soon as `size ≤ 1024`, and
`format_size` supplies provably sufficient fuel. -/
def format_size_loop : Nat → Rat → Rat × Nat
  | 0, size => (size, 0)
  | fuel + 1, size =>
    if 1024 < size then
      let r := format_size_loop fuel (size / 1024)
      (r.1, r.2 + 1)
    else (size, 0)

/-- `format_size(size)` from the source, for a natural-number byte count:
runs the division loop, then looks the iteration count up in `power_labels`.
The result is the pair (displayed value, unit label); `none` models the
`KeyError` raised when the loop ran more than three times.  (The `f"{size:.2f}"`
decimal rendering of the value is presentation only and is not modelled.) -/
def format_size (size : Nat) : Option (Rat × String) :=
  let r := format_size_loop size (size : Rat)
  match power_labels r.2 with
  | some label => some (r.1, label)
  | none => none

/-- The unit index chosen by `format_size` for a byte count: the number of
times the loop divided by 1024. -/
def format_size_n (size : Nat) : Nat :=
  (format_size_loop size (size : Rat)).2

/-- `print_progress(transferred, total, remotefile_size)` from the source:
computes `transferred / remotefile_size * 100`.  Python raises
`ZeroDivisionError` when `remotefile_size == 0`, modelled by `none`;
otherwise the exact percentage is returned. -/
def print_progress (transferred : Nat) (total : Nat) (remotefile_size : Nat) :
    Option Rat :=
  if remotefile_size = 0 then none
  else some ((transferred : Rat) / (remotefile_size : Rat) * 100)

/-! ## The remote tree and the directory walker -/

/-- A remote directory listing, as returned by `sftp.listdir_attr`: each entry
carries `filename`, `st_mode`, `st_size` and the actual remote object behind
it (a regular file with its byte content, or a directory with its own
entries).  `st_mode` is kept separate from the constructor because the code
classifies entries by a bit of `st_mode`, not by their actual kind. -/
inductive RForest where
  | nil : RForest
  | consFile (filename : String) (st_mode : Nat) (st_size : Nat)
      (content : List Nat) (rest : RForest) : RForest
  | consDir (filename : String) (st_mode : Nat) (st_size : Nat)
      (children : RForest) (rest : RForest) : RForest
deriving DecidableEq

/-- The filenames of a listing, as returned by `sftp.listdir`. -/
def RForest.names : RForest → List String
  | .nil => []
  | .consFile n _ _ _ rest => n :: rest.names
  | .consDir n _ _ _ rest => n :: rest.names

/-- `sftp.stat` outcome for one entry: a regular file with its size and
content, or a directory. -/
inductive FNode where
  | file (st_size : Nat) (content : List Nat) : FNode
  | dir : FNode
deriving DecidableEq

/-- Look up a top-level entry of a listing by filename (`sftp.stat` on
`remote_dir/<name>`); `none` models `FileNotFoundError`. -/
def RForest.find (name : String) : RForest → Option FNode
  | .nil => none
  | .consFile n _ sz c rest => if n = name then some (.file sz c) else rest.find name
  | .consDir n _ _ _ rest => if n = name then some .dir else rest.find name

/-- An observable primitive operation performed on the local side during a
run.  `formatSize n` records the `format_size(remote_size)` call made while
building the `"Downloading …"` message (the first thing the file branch
does); `makedirs` is `os.makedirs(..., exist_ok=True)`; `openWrite` is
`open(local_path, 'wb')` (create or truncate); `write` is the byte stream
`sftp.getfo` feeds into the opened file. -/
inductive Act where
  | formatSize (n : Nat) : Act
  | makedirs (p : List String) : Act
  | openWrite (p : List String) : Act
  | write (p : List String) (content : List Nat) : Act
deriving DecidableEq

/-- The body of `download_directory(sftp, remote_dir, local_dir)`: the loop
`for item in sftp.listdir_attr(remote_dir)` over the entries of the remote
directory.  Returns the trace of local actions in order, paired with `True`
iff no exception was raised (an exception aborts the rest of the walk, as in
Python).

Per entry, faithfully to the source:
* excluded filenames are skipped entirely;
* `if item.st_mode & 0o4000:` (`2048 = 0o4000`) routes to the directory
  branch: `os.makedirs(local_path, exist_ok=True)` then a recursive
  `download_directory` on the child paths — whose own `listdir_attr` raises
  `IOError` if the remote object is in fact a regular file;
* otherwise the file branch runs: `format_size(item.st_size)` is evaluated
  first (inside the f-string of the announcement; a `KeyError` there aborts
  before anything is opened), then `open(local_path, 'wb')`, then
  `sftp.getfo` — which raises `IOError` if the remote object is in fact a
  directory. -/
def walkEntries : RForest → List String → List String → List Act × Bool
  | .nil, _, _ => ([], true)
  | .consFile name mode size content rest, remote_dir, local_dir =>
    if should_exclude name then walkEntries rest remote_dir local_dir
    else
      let local_path := local_dir ++ [name]
      if mode &&& 2048 ≠ 0 then
        -- directory branch on a regular file: makedirs succeeds, then the
        -- recursive call's listdir_attr raises IOError
        ([Act.makedirs local_path], false)
      else
        match format_size size with
        | none => ([Act.formatSize size], false)
        | some _ =>
          let r := walkEntries rest remote_dir local_dir
          (Act.formatSize size :: Act.openWrite local_path ::
            Act.write local_path content :: r.1, r.2)
  | .consDir name mode size children rest, remote_dir, local_dir =>
    if should_exclude name then walkEntries rest remote_dir local_dir
    else
      let remote_path := remote_dir ++ [name]
      let local_path := local_dir ++ [name]
      if mode &&& 2048 ≠ 0 then
        let r := walkEntries children remote_path local_path
        if r.2 then
          let r2 := walkEntries rest remote_dir local_dir
          (Act.makedirs local_path :: (r.1 ++ r2.1), r2.2)
        else (Act.makedirs local_path :: r.1, false)
      else
        -- file branch on a directory: the size is formatted and the local
        -- file is opened, then getfo on the directory raises IOError
        match format_size size with
        | none => ([Act.formatSize size], false)
        | some _ => ([Act.formatSize size, Act.openWrite local_path], false)

/-- `download_directory(sftp, remote_dir, local_dir)` where the remote
directory's listing is `forest`. -/
def download_directory (forest : RForest) (remote_dir local_dir : List String) :
    List Act × Bool :=
  walkEntries forest remote_dir local_dir

/-! ## The local filesystem and replay of a trace -/

/-- The local filesystem state touched by a run: the set of directories that
exist and an association of file paths to byte contents. -/
structure LocalFS where
  dirs : List (List String)
  files : List (List String × List Nat)
deriving DecidableEq

/-- Content of a local file, if present. -/
def LocalFS.lookupFile (fs : LocalFS) (p : List String) : Option (List Nat) :=
  (fs.files.find? (fun e => e.1 = p)).map (·.2)

/-- Replace the content of `p` if present, else add it. -/
def LocalFS.setFile (fs : LocalFS) (p : List String) (c : List Nat) : LocalFS :=
  if fs.files.any (fun e => e.1 = p) then
    { fs with files := fs.files.map (fun e => if e.1 = p then (p, c) else e) }
  else { fs with files := fs.files ++ [(p, c)] }

/-- Effect of one primitive action on the local filesystem.
`makedirs … exist_ok=True` is idempotent; `openWrite` creates the file empty,
truncating any existing content (mode `'wb'`); `write` fills in the streamed
bytes; `formatSize` has no filesystem effect. -/
def LocalFS.apply (fs : LocalFS) : Act → LocalFS
  | .formatSize _ => fs
  | .makedirs p => if p ∈ fs.dirs then fs else { fs with dirs := p :: fs.dirs }
  | .openWrite p => fs.setFile p []
  | .write p c => fs.setFile p c

/-- Replay a trace of actions over an initial local filesystem. -/
def replay (fs : LocalFS) (tr : List Act) : LocalFS :=
  tr.foldl LocalFS.apply fs

/-! ## The interactive session (module level code, lines 62-149)

The module body is driven by an environment describing the user's keystrokes
and the remote side.  An `input()` result of `none` models a
`KeyboardInterrupt` raised at that prompt.  The interpreter records every
prompt and message printed, the local actions performed, the number of
`sftp.listdir` calls made at the session level, the number of
`ssh_client.close()` calls, and any exception that escapes the module
(`KeyboardInterrupt` is not an `Exception` in Python, so `except Exception`
at line 144 does not catch it; if it is raised before line 70 the name
`ssh_client` is unbound and the `finally` block itself raises `NameError`). -/

/-- Outcome of one `ssh_client.connect` attempt (line 76). -/
inductive ConnectRes where
  | ok : ConnectRes
  | authFail : ConnectRes
  | sshFail : ConnectRes
  | interrupt : ConnectRes
deriving DecidableEq

/-- The environment of a session run: user inputs in the order the script
consumes them, plus the remote filesystem (`fs c` is the listing of
`/case/<c>`, `none` meaning `sftp.listdir` raises `IOError`). -/
structure Env where
  username : Option String
  password : Option String
  connects : List ConnectRes
  caseNumbers : List (Option String)
  localDirs : List (Option String)
  fs : String → Option RForest
  choices : List (Option String)
  filenames : List (Option String)

/-- Observable result of a session run. -/
structure Output where
  prints : List String
  actions : List Act
  listdirs : Nat
  closes : Nat
  uncaught : Option String
  exhausted : Bool
deriving DecidableEq

/-- Messages and prompts printed by the script, verbatim. -/
def msgUserPrompt : String := "Enter your user name: "

def msgPassPrompt : String := "Enter your password: "

def msgEstablished : String := "SSH connection established."

def msgAuthFailed : String :=
  "\nAuthentication failed. Please check your username and password."

def msgSshFailed : String :=
  "\nFailed to establish SSH connection. Please check the server details."

def msgAborted : String := "\nDownload process aborted."

def msgCasePrompt : String := "\nEnter the case number: "

def msgDirPrompt : String :=
  "Enter the local parent directory where you want to save the case folder: "

def msgNoSuchDir (c : String) : String :=
  "\nRemote directory \x27/case/" ++ c ++ "\x27 does not exist."

def msgContents (c : String) : String :=
  "\nContents of case file directory " ++ c ++ ":"

def msgBanner : String := "\n*********************************************************\n"

def msgChoicePrompt : String :=
  "\nDo you want to download the entire folder? (yes/no): "

def msgFilePrompt : String := "\nEnter the filename you want to download: "

def msgNoSuchFile (f : String) : String :=
  "Remote file \x27" ++ f ++ "\x27 does not exist. Please enter a valid filename."

def msgFileDone (f : String) : String := "\nDownload of " ++ f ++ " complete"

def msgInvalid : String := "Invalid choice. Please enter \x27yes\x27 or \x27no\x27."

def msgCompleted : String := "\nDownload process completed."

def msgError : String := "An error occurred: "

def msgEnded : String := "\nSession has ended."

/-- `str.lower()` on the choice input (line 115): ASCII lowercasing, written
as a character map so that it evaluates by kernel reduction (Lean's own
`String.toLower` is the same map expressed through `String.mapAux`). -/
def lower (s : String) : String := String.mk (s.data.map Char.toLower)

/-- How an execution of the `while True` loop at line 74 ends. -/
inductive LoopRes where
  | broke : LoopRes
  | exn (what : String) : LoopRes
  | exhausted : LoopRes
deriving DecidableEq

/-- The filename retry loop (lines 120-129): prompt until `sftp.stat`
succeeds on `/case/<c>/<filename>`.  Returns the prints it produced, the
remaining filename inputs, and the result: the accepted filename with its
stat outcome, `none` for a `KeyboardInterrupt`, or model exhaustion of the
scripted inputs. -/
def filenameLoop (forest : RForest) :
    List (Option String) → List String →
    List String × List (Option String) × Option (Option (String × FNode))
  | [], prints => (prints, [], some none)
  | none :: rest, prints => (prints ++ [msgFilePrompt], rest, none)
  | some f :: rest, prints =>
    match forest.find f with
    | some node => (prints ++ [msgFilePrompt], rest, some (some (f, node)))
    | none => filenameLoop forest rest (prints ++ [msgFilePrompt, msgNoSuchFile f])

/-- One execution of the `while True` loop at line 74, consuming one
`connect` outcome per iteration.  The accumulated `Output` collects prints,
actions, `listdir` calls; the returned `LoopRes` says how the loop ended
(`broke` via `break`, `exn` via an exception that is not a
`KeyboardInterrupt` and so escapes to the handler at line 144, or model
exhaustion).  A `KeyboardInterrupt` inside the session body is caught at
line 140; the listing-failure path at line 101 executes `continue`, which
re-runs the whole loop body, connect included. -/
def outerLoop (fs : String → Option RForest) :
    List ConnectRes → List (Option String) → List (Option String) →
    List (Option String) → List (Option String) → Output → Output × LoopRes
  | [], _, _, _, _, out => (out, .exhausted)
  | c :: cs, cases, dirs, choices, files, out =>
    match c with
    | .authFail => ({ out with prints := out.prints ++ [msgAuthFailed] }, .broke)
    | .sshFail => ({ out with prints := out.prints ++ [msgSshFailed] }, .broke)
    | .interrupt => ({ out with prints := out.prints ++ [msgAborted] }, .broke)
    | .ok =>
      let out := { out with prints := out.prints ++ [msgEstablished] }
      match cases with
      | [] => (out, .exhausted)
      | none :: _ =>
        ({ out with prints := out.prints ++ [msgCasePrompt, msgAborted] }, .broke)
      | some cn :: cases' =>
        let out := { out with prints := out.prints ++ [msgCasePrompt] }
        match dirs with
        | [] => (out, .exhausted)
        | none :: _ =>
          ({ out with prints := out.prints ++ [msgDirPrompt, msgAborted] }, .broke)
        | some d :: dirs' =>
          let out := { out with prints := out.prints ++ [msgDirPrompt] }
          -- sftp.listdir(remote_directory), line 98
          let out := { out with listdirs := out.listdirs + 1 }
          match fs cn with
          | none =>
            -- IOError: report and `continue` (back to line 76)
            let out := { out with prints := out.prints ++ [msgNoSuchDir cn] }
            outerLoop fs cs cases' dirs' choices files out
          | some forest =>
            -- local_case_directory = join(expanduser(d), case_number);
            -- created if absent (idempotent ensure)
            let localCase := [d, cn]
            let remoteCase := ["case", cn]
            let out := { out with actions := out.actions ++ [Act.makedirs localCase] }
            -- sftp.listdir(remote_directory), line 109, and the contents print
            let out := { out with
              listdirs := out.listdirs + 1,
              prints := out.prints ++ [msgContents cn, msgBanner] ++
                forest.names ++ [msgBanner] }
            match choices with
            | [] => (out, .exhausted)
            | none :: _ =>
              ({ out with prints := out.prints ++ [msgChoicePrompt, msgAborted] }, .broke)
            | some ch :: choices' =>
              let out := { out with prints := out.prints ++ [msgChoicePrompt] }
              if lower ch = "yes" then
                let r := download_directory forest remoteCase localCase
                let out := { out with actions := out.actions ++ r.1 }
                if r.2 then
                  let out := { out with prints := out.prints ++ [msgCompleted] }
                  outerLoop fs cs cases' dirs' choices' files out
                else (out, .exn "IOError in download_directory")
              else if lower ch = "no" then
                match filenameLoop forest files out.prints with
                | (prints', _, none) =>
                  ({ out with prints := prints' ++ [msgAborted] }, .broke)
                | (prints', _, some none) => ({ out with prints := prints' }, .exhausted)
                | (prints', files', some (some (f, node))) =>
                  let out := { out with prints := prints' }
                  let lp := localCase ++ [f]
                  let out := { out with actions := out.actions ++ [Act.openWrite lp] }
                  match node with
                  | .file _ content =>
                    let out := { out with
                      actions := out.actions ++ [Act.write lp content],
                      prints := out.prints ++ [msgFileDone f, msgCompleted] }
                    outerLoop fs cs cases' dirs' choices' files' out
                  | .dir => (out, .exn "IOError in getfo")
              else
                let out := { out with
                  prints := out.prints ++ [msgInvalid, msgCompleted] }
                outerLoop fs cs cases' dirs' choices' files out

/-- The whole module body: the outer `try` (line 62), the credential prompts
(lines 66-67) at which a `KeyboardInterrupt` is uncaught (`except Exception`
does not catch it) and leaves `ssh_client` unbound so that the `finally`
block raises `NameError` before printing anything, the `while True` loop,
the `except Exception` handler (line 144), and the `finally` teardown
(lines 146-149). -/
def runSession (env : Env) : Output :=
  let out0 : Output :=
    { prints := [msgUserPrompt], actions := [], listdirs := 0, closes := 0,
      uncaught := none, exhausted := false }
  match env.username with
  | none => { out0 with uncaught := some "NameError" }
  | some _ =>
    let out1 := { out0 with prints := out0.prints ++ [msgPassPrompt] }
    match env.password with
    | none => { out1 with uncaught := some "NameError" }
    | some _ =>
      match outerLoop env.fs env.connects env.caseNumbers env.localDirs
          env.choices env.filenames out1 with
      | (out, .broke) =>
        { out with closes := out.closes + 1, prints := out.prints ++ [msgEnded] }
      | (out, .exn what) =>
        { out with
          closes := out.closes + 1
          prints := out.prints ++ [msgError ++ what, msgEnded] }
      | (out, .exhausted) => { out with exhausted := true }

/-! ## Claims -/

/-- C10: `print_progress` divides by the remote file size without any guard:
for a zero-byte remote file every invocation of the callback raises
`ZeroDivisionError` (modelled by `none`), while for any nonzero size it
returns the exact percentage `transferred / remotefile_size * 100`. -/
theorem claim_C10_zero_division :
    (∀ transferred total : Nat, print_progress transferred total 0 = none)
    ∧ (∀ transferred total size : Nat, size ≠ 0 →
        print_progress transferred total size =
          some ((transferred : Rat) / (size : Rat) * 100)) := by
  constructor
  · intro t tot
    simp [print_progress]
  · intro t tot s hs
    simp [print_progress, hs]

/-- Witness for C10 at a concrete input: a transfer of 1 byte out of a
2-byte file reports 50 percent. -/
theorem claim_C10_zero_division_witness :
    (2 : Nat) ≠ 0 ∧ print_progress 1 0 2 = some 50 := by
  refine ⟨by decide, ?_⟩
  rw [claim_C10_zero_division.2 1 0 2 (by decide)]
  norm_num

/-- C2: exclusion is exact-filename equality against the fixed two-element
set, and it governs the walker: a sentinel-named entry is skipped outright
(the walk is literally the walk of the remaining entries — nothing is
transferred or recursed into for it), while any non-excluded entry is
processed: the very first local action of the walk concerns that entry
(`makedirs` of its local path when the mode-bit test routes it to the
directory branch, otherwise the size formatting that opens its transfer). -/
theorem claim_C2_exact_exclusion :
    (∀ f : String, should_exclude f = true ↔
      f = ".sfdcprefix" ∨ f = ".sfdc-file-listing-v1")
    ∧ (∀ name mode size content rest rd ld, should_exclude name = true →
        walkEntries (.consFile name mode size content rest) rd ld =
          walkEntries rest rd ld)
    ∧ (∀ name mode size children rest rd ld, should_exclude name = true →
        walkEntries (.consDir name mode size children rest) rd ld =
          walkEntries rest rd ld)
    ∧ (∀ name mode size content rest rd ld, should_exclude name = false →
        (walkEntries (.consFile name mode size content rest) rd ld).1.head? =
          some (if mode &&& 2048 ≠ 0 then Act.makedirs (ld ++ [name])
            else Act.formatSize size))
    ∧ (∀ name mode size children rest rd ld, should_exclude name = false →
        (walkEntries (.consDir name mode size children rest) rd ld).1.head? =
          some (if mode &&& 2048 ≠ 0 then Act.makedirs (ld ++ [name])
            else Act.formatSize size)) := by
  refine ⟨?_, ?_, ?_, ?_, ?_⟩
  · intro f
    simp [should_exclude]
  · intro name mode size content rest rd ld h
    simp [walkEntries, h]
  · intro name mode size children rest rd ld h
    simp [walkEntries, h]
  · intro name mode size content rest rd ld h
    by_cases hb : mode &&& 2048 ≠ 0
    · simp [walkEntries, h, hb]
    · rcases hf : format_size size with _ | v
      · simp [walkEntries, h, hb, hf]
      · simp [walkEntries, h, hb, hf]
  · intro name mode size children rest rd ld h
    by_cases hb : mode &&& 2048 ≠ 0
    · rcases hr : (walkEntries children (rd ++ [name]) (ld ++ [name])).2 with _ | _
      · simp [walkEntries, h, hb, hr]
      · simp [walkEntries, h, hb, hr]
    · rcases hf : format_size size with _ | v
      · simp [walkEntries, h, hb, hf]
      · simp [walkEntries, h, hb, hf]

/-- Witness for C2 at concrete inputs: the first sentinel name is excluded
and skipped by the walker; an ordinary filename is not excluded and its
entry is processed (its transfer begins). -/
theorem claim_C2_exact_exclusion_witness :
    should_exclude ".sfdcprefix" = true
    ∧ walkEntries (.consFile ".sfdcprefix" 33188 3 [1, 2, 3] .nil) ["r"] ["l"] =
        walkEntries .nil ["r"] ["l"]
    ∧ (walkEntries (.consFile "a.txt" 33188 3 [1, 2, 3] .nil) ["r"] ["l"]).1.head? =
        some (Act.formatSize 3) := by
  refine ⟨(claim_C2_exact_exclusion.1 ".sfdcprefix").mpr (Or.inl rfl),
    claim_C2_exact_exclusion.2.1 ".sfdcprefix" 33188 3 [1, 2, 3] .nil ["r"] ["l"]
      (by decide), ?_⟩
  rw [claim_C2_exact_exclusion.2.2.2.1 "a.txt" 33188 3 [1, 2, 3] .nil ["r"] ["l"]
    (by decide)]
  decide

/-- Writing a file then looking it up yields the written content, whether or
not the path already existed. -/
theorem LocalFS.lookupFile_setFile (fs : LocalFS) (p : List String) (c : List Nat) :
    (fs.setFile p c).lookupFile p = some c := by
  obtain ⟨ds, l⟩ := fs
  unfold LocalFS.setFile
  by_cases hany : l.any (fun e => e.1 = p)
  · simp only [hany, if_pos]
    unfold LocalFS.lookupFile
    simp only
    induction l with
    | nil => simp at hany
    | cons e l ih =>
      by_cases he : e.1 = p
      · simp [List.find?, he]
      · simp only [List.any_cons, Bool.or_eq_true] at hany
        rcases hany with h1 | h2
        · exact absurd (by simpa using h1) he
        · simpa [List.find?, he] using ih h2
  · simp only [hany, if_neg, Bool.not_eq_true]
    unfold LocalFS.lookupFile
    simp only
    induction l with
    | nil => simp [List.find?]
    | cons e l ih =>
      simp only [List.any_cons, Bool.or_eq_true] at hany
      push_neg at hany
      have he : ¬ (e.1 = p) := by simpa using hany.1
      simpa [List.find?, he] using ih (by simpa using hany.2)

/-- C9 counterexample: the claim says a transfer to an already existing
local path fails (exclusive write).  In fact the walker's file case opens
with mode `wb`: here the local file `d/a.txt` already holds `[1, 2, 3]`,
the transfer of the 1-byte remote file `a.txt` succeeds anyway, and the
existing content is silently replaced by the downloaded byte `[9]`. -/
theorem claim_C9_counterexample :
    (walkEntries (.consFile "a.txt" 33188 1 [9] .nil) ["r"] ["d"]).2 = true
    ∧ (replay ⟨[], [(["d", "a.txt"], [1, 2, 3])]⟩
        (walkEntries (.consFile "a.txt" 33188 1 [9] .nil) ["r"] ["d"]).1).lookupFile
        ["d", "a.txt"] = some [9] := by
  decide

/-- Environment reaching the session's single-file path (lines 120-134):
one successful connection, case directory `100` holding a single remote
regular file `f` of size `sz` with bytes `content`, answer `no` to the
whole-folder prompt, then `f` at the filename prompt; the next connect
attempt fails authentication so the run terminates cleanly. -/
def envSingleFile (f : String) (sz : Nat) (content : List Nat) : Env :=
  { username := some "u", password := some "p",
    connects := [.ok, .authFail], caseNumbers := [some "100"],
    localDirs := [some "dl"],
    fs := fun _ => some (.consFile f 33188 sz content .nil),
    choices := [some "no"], filenames := [some f] }

/-- C9 amended: every file transfer opens the local destination with
create-or-truncate mode (`'wb'`), not exclusive write, so a transfer to a
local path that already exists succeeds and silently truncates and
overwrites the existing content with the downloaded bytes.  First conjunct:
the walker's file case (line 41).  Second conjunct: the session's
single-file path (line 131) — the whole run performs exactly the ensure of
the local case directory, the truncating open and the write, raises
nothing, announces the completed download, and replaying it over any local
filesystem that already has a file at the destination leaves the
downloaded bytes there. -/
theorem claim_C9_truncating_write :
    (∀ (name : String) (mode size : Nat) (content : List Nat)
      (rd ld : List String) (fs : LocalFS) (old : List Nat),
      should_exclude name = false → mode &&& 2048 = 0 →
      (format_size size).isSome = true →
      fs.lookupFile (ld ++ [name]) = some old →
      (walkEntries (.consFile name mode size content .nil) rd ld).2 = true
      ∧ (replay fs
          (walkEntries (.consFile name mode size content .nil) rd ld).1).lookupFile
          (ld ++ [name]) = some content)
    ∧ (∀ (f : String) (sz : Nat) (content : List Nat) (fs : LocalFS)
      (old : List Nat),
      fs.lookupFile ["dl", "100", f] = some old →
      (runSession (envSingleFile f sz content)).actions =
        [Act.makedirs ["dl", "100"], Act.openWrite ["dl", "100", f],
          Act.write ["dl", "100", f] content]
      ∧ (runSession (envSingleFile f sz content)).uncaught = none
      ∧ msgFileDone f ∈ (runSession (envSingleFile f sz content)).prints
      ∧ (replay fs (runSession (envSingleFile f sz content)).actions).lookupFile
          ["dl", "100", f] = some content) := by
  constructor
  · intro name mode size content rd ld fs old hex hbit hfmt hold
    rcases hv : format_size size with _ | v
    · rw [hv] at hfmt
      simp at hfmt
    · constructor
      · simp [walkEntries, hex, hbit, hv]
      · simp only [walkEntries, hex, hbit, hv]
        simp only [Bool.false_eq_true, if_false, ne_eq, hbit, not_true_eq_false,
          if_false, if_neg]
        simp [replay, LocalFS.apply, LocalFS.lookupFile_setFile]
  · intro f sz content fs old hold
    have hn1 : ¬ lower "no" = "yes" := by decide
    have hn2 : lower "no" = "no" := by decide
    have hrun : runSession (envSingleFile f sz content) =
        { prints := [msgUserPrompt, msgPassPrompt, msgEstablished, msgCasePrompt,
            msgDirPrompt, msgContents "100", msgBanner, f, msgBanner,
            msgChoicePrompt, msgFilePrompt, msgFileDone f, msgCompleted,
            msgAuthFailed, msgEnded],
          actions := [Act.makedirs ["dl", "100"], Act.openWrite ["dl", "100", f],
            Act.write ["dl", "100", f] content],
          listdirs := 2, closes := 1, uncaught := none, exhausted := false } := by
      simp [runSession, envSingleFile, outerLoop, filenameLoop, RForest.find,
        RForest.names, hn1, hn2]
    rw [hrun]
    refine ⟨rfl, rfl, by simp, ?_⟩
    simp [replay, LocalFS.apply, LocalFS.lookupFile_setFile]

/-- Witness for C9 amended, at the counterexample's input shifted to fresh
paths: in the walker's file case the pre-existing `l/b.txt` content `[7]`
is replaced by the downloaded `[4, 5]`, and in the session's single-file
path the pre-existing `dl/100/s.txt` content `[7]` is likewise replaced by
the downloaded `[4, 5]`. -/
theorem claim_C9_truncating_write_witness :
    ((walkEntries (.consFile "b.txt" 33188 2 [4, 5] .nil) ["r"] ["l"]).2 = true
      ∧ (replay ⟨[], [(["l", "b.txt"], [7])]⟩
          (walkEntries (.consFile "b.txt" 33188 2 [4, 5] .nil) ["r"] ["l"]).1).lookupFile
          ["l", "b.txt"] = some [4, 5])
    ∧ ((runSession (envSingleFile "s.txt" 2 [4, 5])).actions =
        [Act.makedirs ["dl", "100"], Act.openWrite ["dl", "100", "s.txt"],
          Act.write ["dl", "100", "s.txt"] [4, 5]]
      ∧ (runSession (envSingleFile "s.txt" 2 [4, 5])).uncaught = none
      ∧ msgFileDone "s.txt" ∈ (runSession (envSingleFile "s.txt" 2 [4, 5])).prints
      ∧ (replay ⟨[], [(["dl", "100", "s.txt"], [7])]⟩
          (runSession (envSingleFile "s.txt" 2 [4, 5])).actions).lookupFile
          ["dl", "100", "s.txt"] = some [4, 5]) :=
  ⟨claim_C9_truncating_write.1 "b.txt" 33188 2 [4, 5] ["r"] ["l"]
      ⟨[], [(["l", "b.txt"], [7])]⟩ [7] (by decide) (by decide) (by decide)
      (by decide),
    claim_C9_truncating_write.2 "s.txt" 2 [4, 5]
      ⟨[], [(["dl", "100", "s.txt"], [7])]⟩ [7] (by decide)⟩

/-- C1 failing input: the code classifies with `st_mode & 0o4000` — the
setuid bit — instead of the directory bit `S_IFDIR = 0o40000`, so a genuine
remote subdirectory `sub` with the standard mode `0o40755 = 16877`
(`drwxr-xr-x`; `S_IFDIR` set, setuid clear, not excluded) is routed to the
file branch: the walker opens a local *file* named `sub` and calls
`sftp.getfo` on the directory, which raises `IOError` and aborts the whole
walk.  Contrary to the claim, no local directory is ever created
(`makedirs` never runs), nothing is recursed into, and the invocation does
not succeed, so a tree with `M = 1` directories yields `0` mirrored local
directories. -/
theorem claim_C1_dir_misclassified :
    16877 &&& 16384 ≠ 0
    ∧ should_exclude "sub" = false
    ∧ download_directory (.consDir "sub" 16877 100 .nil .nil) ["case", "42"] ["dl", "42"]
        = ([Act.formatSize 100, Act.openWrite ["dl", "42", "sub"]], false)
    ∧ (replay ⟨[], []⟩ (download_directory (.consDir "sub" 16877 100 .nil .nil)
        ["case", "42"] ["dl", "42"]).1).dirs = [] := by
  decide

/-- The loop does nothing when the entry value is already at most 1024. -/
theorem format_size_loop_stop (fuel : Nat) (s : Rat) (h : ¬ 1024 < s) :
    format_size_loop fuel s = (s, 0) := by
  cases fuel <;> simp [format_size_loop, h]

/-- One unfolding of the loop when the condition holds. -/
theorem format_size_loop_step (fuel : Nat) (s : Rat) (h : 1024 < s) :
    format_size_loop (fuel + 1) s =
      ((format_size_loop fuel (s / 1024)).1,
        (format_size_loop fuel (s / 1024)).2 + 1) := by
  simp [format_size_loop, h]

/-- Bracketing of the loop's iteration count: with fuel sufficient for the
input (`s ≤ 1024 ^ (fuel + 1)`), the count `n` of divisions satisfies
`s ≤ 1024 ^ (n + 1)` and, unless `n = 0`, also `1024 ^ n < s`. -/
theorem format_size_loop_bracket (fuel : Nat) (s : Rat)
    (h : s ≤ 1024 ^ (fuel + 1)) :
    s ≤ 1024 ^ ((format_size_loop fuel s).2 + 1)
    ∧ ((format_size_loop fuel s).2 = 0 ∨
        (1024 : Rat) ^ (format_size_loop fuel s).2 < s) := by
  induction fuel generalizing s with
  | zero =>
    rw [format_size_loop]
    exact ⟨by simpa using h, Or.inl rfl⟩
  | succ f ih =>
    by_cases hs : 1024 < s
    · have h' : s / 1024 ≤ 1024 ^ (f + 1) := by
        rw [div_le_iff (by norm_num : (0 : Rat) < 1024)]
        calc s ≤ 1024 ^ (f + 1 + 1) := h
        _ = 1024 ^ (f + 1) * 1024 := by ring
      obtain ⟨h1, h2⟩ := ih (s / 1024) h'
      rw [format_size_loop_step f s hs]
      constructor
      · have := (div_le_iff (by norm_num : (0 : Rat) < 1024)).1 h1
        calc s ≤ 1024 ^ ((format_size_loop f (s / 1024)).2 + 1) * 1024 := this
        _ = 1024 ^ ((format_size_loop f (s / 1024)).2 + 1 + 1) := by ring
      · refine Or.inr ?_
        rcases h2 with h2 | h2
        · rw [h2]
          simpa using hs
        · have h3 := (lt_div_iff (by norm_num : (0 : Rat) < 1024)).1 h2
          calc (1024 : Rat) ^ ((format_size_loop f (s / 1024)).2 + 1)
              = 1024 ^ (format_size_loop f (s / 1024)).2 * 1024 := by ring
          _ < s := h3
    · rw [format_size_loop_stop _ _ hs]
      exact ⟨by simpa using not_lt.1 hs, Or.inl rfl⟩

/-- The fuel `format_size` supplies (the byte count itself) is always
sufficient: a natural number `B` is at most `1024 ^ (B + 1)`. -/
theorem format_size_fuel_sufficient (B : Nat) : (B : Rat) ≤ 1024 ^ (B + 1) := by
  have h1 : B < 2 ^ B := Nat.lt_two_pow B
  have h2 : 2 ^ B ≤ 1024 ^ B := Nat.pow_le_pow_left (by norm_num) B
  have h3 : 1024 ^ B ≤ 1024 ^ (B + 1) :=
    Nat.pow_le_pow_right (by norm_num) (Nat.le_succ B)
  have : B ≤ 1024 ^ (B + 1) := le_of_lt (lt_of_lt_of_le h1 (le_trans h2 h3))
  exact_mod_cast this

/-- Bracketing of `format_size_n` in terms of the byte count. -/
theorem format_size_n_bracket (B : Nat) :
    (B : Rat) ≤ 1024 ^ (format_size_n B + 1)
    ∧ (format_size_n B = 0 ∨ (1024 : Rat) ^ format_size_n B < (B : Rat)) :=
  format_size_loop_bracket B (B : Rat) (format_size_fuel_sufficient B)

/-- Any index past 3 misses the label table. -/
theorem power_labels_eq_none {n : Nat} (h : 3 < n) : power_labels n = none := by
  obtain ⟨m, rfl⟩ : ∃ m, n = m + 4 := ⟨n - 4, by omega⟩
  rfl

/-- C3: the loop divides by 1024 only while the value strictly exceeds 1024,
so a byte count exactly equal to a power-of-1024 threshold is NOT promoted:
`1024 ^ (k + 1)` gets unit index `k`, one below the next unit; and the unit
index is monotonically non-decreasing in the byte count. -/
theorem claim_C3_threshold_and_monotone :
    (∀ k : Nat, format_size_n (1024 ^ (k + 1)) = k)
    ∧ (∀ a b : Nat, a ≤ b → format_size_n a ≤ format_size_n b) := by
  constructor
  · intro k
    obtain ⟨h1, h2⟩ := format_size_n_bracket (1024 ^ (k + 1))
    have hc : ((1024 ^ (k + 1) : Nat) : Rat) = (1024 : Rat) ^ (k + 1) := by
      push_cast
      ring
    rw [hc] at h1 h2
    have hk : k + 1 ≤ format_size_n (1024 ^ (k + 1)) + 1 :=
      (pow_le_pow_iff_right (by norm_num : (1 : Rat) < 1024)).1 h1
    rcases h2 with h2 | h2
    · omega
    · have hn : format_size_n (1024 ^ (k + 1)) < k + 1 :=
        (pow_lt_pow_iff_right (by norm_num : (1 : Rat) < 1024)).1 h2
      omega
  · intro a b hab
    by_contra hcon
    push_neg at hcon
    obtain ⟨ha1, ha2⟩ := format_size_n_bracket a
    obtain ⟨hb1, hb2⟩ := format_size_n_bracket b
    rcases ha2 with h | h
    · omega
    · have hcast : (a : Rat) ≤ (b : Rat) := by exact_mod_cast hab
      have hpow : (1024 : Rat) ^ (format_size_n b + 1) ≤ 1024 ^ format_size_n a :=
        pow_le_pow_right (by norm_num : (1 : Rat) ≤ 1024) (by omega)
      exact absurd (lt_of_lt_of_le (lt_of_lt_of_le h (le_trans hcast hb1)) hpow)
        (lt_irrefl _)

/-- Witness for C3 at concrete inputs: `1024 ^ 2` bytes stays at unit index
1 (`KB`, not promoted to `MB`), and the unit index at 5 bytes is at most the
one at 2048 bytes. -/
theorem claim_C3_threshold_and_monotone_witness :
    format_size_n (1024 ^ 2) = 1
    ∧ (5 ≤ 2048 ∧ format_size_n 5 ≤ format_size_n 2048) :=
  ⟨claim_C3_threshold_and_monotone.1 1,
    by decide, claim_C3_threshold_and_monotone.2 5 2048 (by decide)⟩

/-- C4: the label table holds exactly the four entries for indices 0-3 (no
TB or higher entry), any larger index misses it, and for every byte count
`B > 1024 ^ 4` — exactly the inputs that make the division loop run a
fourth time — the lookup misses, i.e. `format_size` raises `KeyError`
(`none`) instead of returning a labelled string. -/
theorem claim_C4_label_table_overflow :
    (power_labels 0 = some "" ∧ power_labels 1 = some "KB"
      ∧ power_labels 2 = some "MB" ∧ power_labels 3 = some "GB")
    ∧ (∀ n : Nat, 3 < n → power_labels n = none)
    ∧ (∀ B : Nat, 1024 ^ 4 < B → format_size B = none) := by
  refine ⟨⟨rfl, rfl, rfl, rfl⟩, fun n hn => power_labels_eq_none hn, ?_⟩
  intro B hB
  obtain ⟨h1, _⟩ := format_size_n_bracket B
  have hcast : (1024 : Rat) ^ 4 < (B : Rat) := by exact_mod_cast hB
  have h4 : 4 < format_size_n B + 1 :=
    (pow_lt_pow_iff_right (by norm_num : (1 : Rat) < 1024)).1
      (lt_of_lt_of_le hcast h1)
  have h3 : 3 < format_size_n B := by omega
  have hnone : power_labels (format_size_loop B (B : Rat)).2 = none :=
    power_labels_eq_none h3
  simp [format_size, hnone]

/-- Witness for C4 at a concrete input: one byte past `1024 ^ 4` overflows
the table. -/
theorem claim_C4_label_table_overflow_witness :
    1024 ^ 4 < 1024 ^ 4 + 1 ∧ format_size (1024 ^ 4 + 1) = none :=
  ⟨by norm_num, claim_C4_label_table_overflow.2.2 (1024 ^ 4 + 1) (by norm_num)⟩

/-- Environment for C5: the user interrupts at the very first prompt
(username), before `ssh_client` is ever assigned. -/
def envInterruptAtUsername : Env :=
  { username := none, password := none, connects := [], caseNumbers := [],
    localDirs := [], fs := fun _ => none, choices := [], filenames := [] }

/-- C5 failing path: a `KeyboardInterrupt` at the username prompt is not an
`Exception`, so the handler at line 144 does not catch it; the `finally`
block then evaluates `ssh_client.close()` with `ssh_client` unbound (it is
only assigned at line 70) and raises `NameError`.  On this exit path the
connection is closed zero times — not once — and the termination message is
never printed, refuting "on every exit path". -/
theorem claim_C5_teardown_violated :
    (runSession envInterruptAtUsername).closes = 0
    ∧ msgEnded ∉ (runSession envInterruptAtUsername).prints
    ∧ (runSession envInterruptAtUsername).uncaught = some "NameError" := by
  decide

/-- Environment for C6: username typed, then `KeyboardInterrupt` during
password entry. -/
def envInterruptAtPassword : Env :=
  { username := some "user", password := none, connects := [], caseNumbers := [],
    localDirs := [], fs := fun _ => none, choices := [], filenames := [] }

/-- C6 failing path: on an interrupt during password entry the script indeed
attempts no directory listing, but contrary to the claim it prints no abort
message at all — the `except KeyboardInterrupt` handlers (lines 84 and 140)
only guard code inside the `while` loop, `except Exception` does not catch
`KeyboardInterrupt`, and the `finally` block dies with `NameError` on the
unbound `ssh_client` before printing anything. -/
theorem claim_C6_password_interrupt :
    (runSession envInterruptAtPassword).prints = [msgUserPrompt, msgPassPrompt]
    ∧ msgAborted ∉ (runSession envInterruptAtPassword).prints
    ∧ (runSession envInterruptAtPassword).listdirs = 0
    ∧ (runSession envInterruptAtPassword).actions = []
    ∧ (runSession envInterruptAtPassword).uncaught = some "NameError" := by
  decide

/-- Environment for C7: a successful connection, an existing case directory
(empty listing), and a whole-folder answer `c`; the next connect attempt
fails authentication so the run terminates cleanly. -/
def envInvalidChoice (c : String) : Env :=
  { username := some "u", password := some "p",
    connects := [.ok, .authFail], caseNumbers := [some "100"],
    localDirs := [some "dl"], fs := fun _ => some .nil,
    choices := [some c], filenames := [] }

/-- C7: when the lower-cased whole-folder answer is neither `yes` nor `no`,
the invalid choice is reported, the yes/no prompt is not re-entered (it is
printed exactly once in the whole run), no download is performed (the only
local action is the earlier creation of the local case directory, no file is
opened or written), and the session proceeds to print the completion
message anyway. -/
theorem claim_C7_invalid_choice (c : String)
    (h1 : ¬ lower c = "yes") (h2 : ¬ lower c = "no") :
    runSession (envInvalidChoice c) =
      { prints := [msgUserPrompt, msgPassPrompt, msgEstablished, msgCasePrompt,
          msgDirPrompt, msgContents "100", msgBanner, msgBanner, msgChoicePrompt,
          msgInvalid, msgCompleted, msgAuthFailed, msgEnded],
        actions := [Act.makedirs ["dl", "100"]], listdirs := 2, closes := 1,
        uncaught := none, exhausted := false } := by
  simp [runSession, envInvalidChoice, outerLoop, RForest.names, h1, h2]

/-- Witness for C7 at the concrete answer `maybe`. -/
theorem claim_C7_invalid_choice_witness :
    runSession (envInvalidChoice "maybe") =
      { prints := [msgUserPrompt, msgPassPrompt, msgEstablished, msgCasePrompt,
          msgDirPrompt, msgContents "100", msgBanner, msgBanner, msgChoicePrompt,
          msgInvalid, msgCompleted, msgAuthFailed, msgEnded],
        actions := [Act.makedirs ["dl", "100"]], listdirs := 2, closes := 1,
        uncaught := none, exhausted := false } :=
  claim_C7_invalid_choice "maybe" (by decide) (by decide)

/-- Environment for C8: the first case number has no remote directory, the
second one exists (empty listing); the whole-folder answer is invalid so the
second pass performs no transfer, and the third connect attempt fails
authentication so the run terminates cleanly. -/
def envMissingCaseDir (c1 c2 : String) : Env :=
  { username := some "u", password := some "p",
    connects := [.ok, .ok, .authFail],
    caseNumbers := [some c1, some c2], localDirs := [some "dl", some "dl"],
    fs := fun c => if c = c2 then some .nil else none,
    choices := [some "skip"], filenames := [] }

/-- C8: when the requested case directory does not exist, the listing
failure is reported as non-existence and control loops back: the case-number
prompt is issued again (it appears a second time, right after the report and
the re-connect print), the session is not aborted (no abort message), and
the connection is closed only once, at the very end of the run after the
second, successful pass. -/
theorem claim_C8_missing_dir_reprompts (c1 c2 : String) (h : ¬ c1 = c2) :
    runSession (envMissingCaseDir c1 c2) =
      { prints := [msgUserPrompt, msgPassPrompt, msgEstablished, msgCasePrompt,
          msgDirPrompt, msgNoSuchDir c1, msgEstablished, msgCasePrompt,
          msgDirPrompt, msgContents c2, msgBanner, msgBanner, msgChoicePrompt,
          msgInvalid, msgCompleted, msgAuthFailed, msgEnded],
        actions := [Act.makedirs ["dl", c2]], listdirs := 3, closes := 1,
        uncaught := none, exhausted := false } := by
  have h1 : ¬ lower "skip" = "yes" := by decide
  have h2 : ¬ lower "skip" = "no" := by decide
  simp [runSession, envMissingCaseDir, outerLoop, RForest.names, h, h1, h2]

/-- Witness for C8 at concrete case numbers 1 and 2. -/
theorem claim_C8_missing_dir_reprompts_witness :
    runSession (envMissingCaseDir "1" "2") =
      { prints := [msgUserPrompt, msgPassPrompt, msgEstablished, msgCasePrompt,
          msgDirPrompt, msgNoSuchDir "1", msgEstablished, msgCasePrompt,
          msgDirPrompt, msgContents "2", msgBanner, msgBanner, msgChoicePrompt,
          msgInvalid, msgCompleted, msgAuthFailed, msgEnded],
        actions := [Act.makedirs ["dl", "2"]], listdirs := 3, closes := 1,
        uncaught := none, exhausted := false } :=
  claim_C8_missing_dir_reprompts "1" "2" (by decide)
